import Mathlib

/-!
Shallow embedding of the nodeSolidServer/oidc-rs resource-server
authentication middleware.

Embedded source files:
  src/AuthenticatedRequest.js  -- the validation pipeline
  src/Credential.js            -- credential variant dispatch
  src/DPoPToken.js             -- DPoP proof-of-possession checking

The files AccessToken.js, PoPToken.js and errors/ are not part of the
sources at hand; the per-credential checks they implement (claim
accessors, expiry, not-before, scope) are modelled from the
specification and marked as such.

JavaScript conventions reproduced here:
  - an absent value (undefined) is Option.none;
  - truthiness of a string value: the empty string is falsy (getTruthy);
  - reading a property of undefined throws a TypeError, which the
    surrounding promise chain turns into a 500 response (Failure.jsError);
  - template interpolation of undefined produces the text "undefined"
    (jsStr);
  - out-of-range array indexing yields undefined (jsIndex).

External behaviour (the JOSE library, network fetches of provider
metadata, wall-clock time) is a parameter of the pipeline, the Env
structure.
-/

/-- JavaScript truthiness for an optional string: undefined and the
empty string are falsy. -/
def getTruthy : Option String → Option String
  | some s => if s = "" then none else some s
  | none => none

/-- Model of the JavaScript String.prototype.includes test. -/
def strIncludes (s pat : String) : Bool :=
  decide (pat.toList <:+: s.toList)

/-- Model of the JavaScript String.prototype.split on a one-character
separator: every occurrence separates, empty segments are kept, the
empty string splits to one empty segment. -/
def jsSplit (s : String) (sep : Char) : List String :=
  (s.toList.splitOnP (· == sep)).map (fun l => String.mk l)

/-- Model of the JavaScript String.prototype.toLowerCase restricted to
the characters relevant here. -/
def jsToLower (s : String) : String :=
  String.mk (s.toList.map Char.toLower)

/-- Template interpolation of a possibly-undefined string value:
undefined prints as "undefined". -/
def jsStr : Option String → String
  | some s => s
  | none => "undefined"

/-- JavaScript array indexing with a possibly negative index:
out-of-range access yields undefined. -/
def jsIndex (l : List String) (i : Int) : Option String :=
  if i < 0 then none else l.get? i.toNat

/-- Aud claim of a JWT: absent, a single string, or a list of strings
(src/AuthenticatedRequest.js distinguishes the three by typeof and
Array.isArray). -/
inductive Aud where
  | missing
  | str (s : String)
  | arr (l : List String)
deriving DecidableEq, Repr

/-- Cnf (confirmation) claim; the jkt member may itself be absent. -/
structure Cnf where
  jkt : Option String
deriving DecidableEq, Repr

/-- Payload claims of a decoded JWT that the pipeline inspects. -/
structure JwtPayload where
  iss : String
  aud : Aud
  sub : String
  exp : Option Nat
  nbf : Option Nat
  scope : Option String
  token_type : Option String
  cnf : Option Cnf
deriving DecidableEq, Repr

/-- Decoded JWT (header and signature bytes are abstracted away; only
the payload is inspected by the embedded code). -/
structure Jwt where
  payload : JwtPayload
deriving DecidableEq, Repr

/-- Request headers the middleware consumes. contentType none means the
Content-Type header (or the whole headers object) is absent. -/
structure Headers where
  authorization : Option String
  contentType : Option String
  dpop : Option String
  host : String
deriving DecidableEq, Repr

/-- Incoming HTTP request projection: the fields the middleware reads. -/
structure Req where
  headers : Headers
  queryToken : Option String
  bodyToken : Option String
  method : String
  path : String
deriving DecidableEq, Repr

/-- Allow filter value: a list of allowed identifiers or a predicate
(the source tests typeof filter for a function). -/
inductive AllowFilter (α : Type) where
  | list (l : List String)
  | fn (f : α → Bool)

/-- Allow option shape: each sub-filter optional. -/
structure AllowOpt where
  issuers : Option (AllowFilter String)
  audience : Option (AllowFilter Aud)
  subjects : Option (AllowFilter String)

/-- Deny option shape: the source only ever calls includes and some on
these, i.e. treats them as arrays. -/
structure DenyOpt where
  issuers : Option (List String)
  audience : Option (List String)
  subjects : Option (List String)
deriving DecidableEq, Repr

/-- Middleware options after parsing. query and optional reflect the
strict comparisons (options.query !== true, options.optional !== true)
in the source. tokenTypesSupported is a caller-visible field that the
AuthenticatedRequest constructor overwrites. -/
structure Options where
  query : Bool
  optional : Bool
  realm : Option String
  allow : Option AllowOpt
  deny : Option DenyOpt
  scopes : Option (List String)
  tokenTypesSupported : List String

/-- Constructor of AuthenticatedRequest (src/AuthenticatedRequest.js,
lines 44-53): spreads the caller options and then overwrites
tokenTypesSupported with [DPOP, LEGACY_POP]. -/
def mkOptions (options : Options) : Options :=
  { options with tokenTypesSupported := ["dpop", "legacyPop"] }

/-- Credential variants (src/Credential.js): AccessToken, PoPToken
(legacy), DPoPToken. The DPoP variant carries the raw DPoP header
value, the server URI (the source passes request.options.realm) and
the request, as in the DPoPToken constructor (src/DPoPToken.js,
lines 14-20). -/
inductive Credential where
  | accessToken (jwt : Jwt)
  | popToken (jwt : Jwt)
  | dpopToken (jwt : Jwt) (dpopHeader : Option String) (serverUri : Option String) (req : Req)

/-- Decoded JWT carried by any credential variant. -/
def Credential.jwt : Credential → Jwt
  | .accessToken j => j
  | .popToken j => j
  | .dpopToken j _ _ _ => j

/-- Modelled from the spec: AccessToken.js is not among the sources;
per spec section 4.2 every credential exposes the iss claim of its
JWT. -/
def Credential.iss (c : Credential) : String := c.jwt.payload.iss

/-- Modelled from the spec: aud claim accessor (AccessToken.js is not
among the sources). -/
def Credential.aud (c : Credential) : Aud := c.jwt.payload.aud

/-- Modelled from the spec: sub claim accessor (AccessToken.js is not
among the sources). -/
def Credential.sub (c : Credential) : String := c.jwt.payload.sub

/-- The isPoPToken flag: set to true by the DPoPToken constructor
(src/DPoPToken.js line 16); for the legacy PoPToken it is modelled
from the spec (section 4.2: a boolean isPoPToken distinguishes
PoP-bound variants); plain access tokens are not PoP tokens. -/
def Credential.isPoPToken : Credential → Bool
  | .accessToken _ => false
  | .popToken _ => true
  | .dpopToken _ _ _ _ => true

/-- Credential dispatch (src/Credential.js, lines 13-26, method from):
token_type "pop" wins, then the detected dpop scheme, else a plain
access token. The Lean name differs because from is a reserved word. -/
def Credential.fromJwt (jwt : Jwt) (tokenType : Option String) (req : Req)
    (options : Options) : Credential :=
  if jwt.payload.token_type = some "pop" then
    .popToken jwt
  else if tokenType = some "dpop" then
    .dpopToken jwt req.headers.dpop options.realm req
  else
    .accessToken jwt

/-- Error object thrown by credential checks: the UnauthorizedError
carries error and error_description; a plain JavaScript Error carries
neither (both undefined). -/
structure ErrObj where
  error : Option String
  error_description : Option String
deriving DecidableEq, Repr

/-- Decoded DPoP header JWT (JWT.decode with complete: true): the jwk
from its header and the htu and htm of its payload, any of which may
be absent. -/
structure DPoPDecoded where
  jwk : Option String
  htu : Option String
  htm : Option String
deriving DecidableEq, Repr

/-- Parsed URL parts, standing in for the WHATWG URL object used by
src/DPoPToken.js (scheme, host, path). -/
structure UriParts where
  scheme : String
  host : String
  path : String
deriving DecidableEq, Repr

/-- Serialization of a URL, standing in for URL.prototype.toString. -/
def UriParts.toStr (u : UriParts) : String :=
  u.scheme ++ "://" ++ u.host ++ u.path

/-- Splitting of a character list at the first occurrence of the
scheme separator, the three characters of colon slash slash. -/
def breakScheme : List Char → Option (List Char × List Char)
  | [] => none
  | c :: rest =>
    if c = ':' ∧ rest.take 2 = ['/', '/'] then
      some ([], rest.drop 2)
    else
      match breakScheme rest with
      | some (pre, post) => some (c :: pre, post)
      | none => none

/-- Parsing of a URL string, standing in for the WHATWG URL
constructor, which throws on input without a scheme or host. -/
def parseUri (s : String) : Option UriParts :=
  match breakScheme s.toList with
  | none => none
  | some (schemeCs, rest) =>
    let hostCs := rest.takeWhile (fun c => c ≠ '/')
    let pathCs := rest.drop hostCs.length
    if schemeCs.isEmpty || hostCs.isEmpty then none
    else some ⟨String.mk schemeCs, String.mk hostCs, String.mk pathCs⟩

/-- Subdomain test (src/DPoPToken.js, lines 66-75): walks the
dot-separated labels of domain from the right and compares each with
the label of subdomain at the same distance from the right; an
out-of-range access on either side yields undefined, and the strict
inequality of two undefined values is false. -/
def isSubdomain (domain subdomain : String) : Bool :=
  let domainArr := jsSplit domain '.'
  let subdomainArr := jsSplit subdomain '.'
  (List.range domainArr.length).all fun j =>
    jsIndex subdomainArr ((subdomainArr.length : Int) - (j + 1))
      == jsIndex domainArr ((domainArr.length : Int) - (j + 1))

/-- Expected htu reconstruction (src/DPoPToken.js, lines 47-51): the
host of the parsed server URI plus request path is replaced by the
request host when the latter is a subdomain of the former. -/
def requiredHtuOf (u : UriParts) (reqHost : String) : String :=
  let host := if isSubdomain u.host reqHost then reqHost else u.host
  UriParts.toStr { u with host := host }

/-- Provider entry as consumed by the pipeline: only the jwks matter
here; the key set is abstracted to an opaque identifier. -/
structure Provider where
  jwks : String
deriving DecidableEq, Repr

/-- Environment: the external behaviour the pipeline depends on.
decode models JWT.decode of the access token; decodeDpop models
JWT.decode of the DPoP header (complete mode, null on junk and on an
absent header); verifyDpop models JWT.verify of the DPoP header under
the pem of the given jwk; thumbprint models jwkThumbprintByEncoding
(SHA-256, base64url); resolve and rotate model the ProviderCache (a
Left value is a rejected promise); resolveKeys models
credential.resolveKeys on a given jwks; verifySig models
credential.verifySignature; legacyPop models the PoPToken variant
validatePoPToken (PoPToken.js is not among the sources); now is the
wall clock. -/
structure Env where
  decode : String → Option Jwt
  decodeDpop : Option String → Option DPoPDecoded
  verifyDpop : Option String → String → Bool
  verifyErrMsg : String
  thumbprint : String → String
  resolve : String → Except String Provider
  rotate : String → Except String Provider
  resolveKeys : String → Bool
  verifySig : Jwt → Bool
  legacyPop : Jwt → Except ErrObj Unit
  now : Nat

/-- DPoP proof validation (src/DPoPToken.js, lines 22-64,
validatePoPToken). Failure paths in order: the decoded header token is
null (the subsequent property access throws inside the first try,
caught as invalid_token), the header jwk is absent (jwkToPem throws),
the signature does not verify, the cnf claim is absent (property
access throws inside the second try), the jkt does not equal the
thumbprint, the URL constructor throws (a plain uncaught TypeError,
hence an error object with neither error nor error_description), the
htu differs from the reconstruction, and finally the htm differs from
the request method, where the source throws new Error applied to an
object, i.e. a plain Error carrying neither error nor
error_description. -/
def dpopValidate (env : Env) (jwt : Jwt) (dpopHeader : Option String)
    (serverUri : Option String) (req : Req) : Except ErrObj Unit :=
  match env.decodeDpop dpopHeader with
  | none =>
    .error ⟨some "invalid_token", some "TypeError: Cannot read properties of null"⟩
  | some d =>
    match d.jwk with
    | none =>
      .error ⟨some "invalid_token", some "TypeError: invalid jwk"⟩
    | some jwk =>
      if !(env.verifyDpop dpopHeader jwk) then
        .error ⟨some "invalid_token", some env.verifyErrMsg⟩
      else
        match jwt.payload.cnf with
        | none =>
          .error ⟨some "invalid_token", some "TypeError: Cannot read properties of undefined"⟩
        | some cnf =>
          if cnf.jkt ≠ some (env.thumbprint jwk) then
            .error ⟨some "invalid_token", some "Access token cnf does not match the DPoP header JWK"⟩
          else
            match parseUri (jsStr serverUri ++ req.path) with
            | none => .error ⟨none, none⟩
            | some u =>
              if d.htu ≠ some (requiredHtuOf u req.headers.host) then
                .error ⟨some "invalid_token",
                  some ("htu " ++ jsStr d.htu ++ " does not match "
                        ++ requiredHtuOf u req.headers.host)⟩
              else if d.htm ≠ some req.method then
                .error ⟨none, none⟩
              else
                .ok ()

/-- Dispatch of credential.validatePoPToken: the DPoP variant runs the
embedded check above; the legacy PoP variant is abstract (PoPToken.js
is not among the sources); the plain access token is never asked (its
isPoPToken is false). -/
def credValidatePoP (env : Env) : Credential → Except ErrObj Unit
  | .accessToken _ => .ok ()
  | .popToken jwt => env.legacyPop jwt
  | .dpopToken jwt hdr uri req => dpopValidate env jwt hdr uri req

/-- Terminal failure of a pipeline step: the badRequest, unauthorized
and forbidden helpers of src/AuthenticatedRequest.js (which write the
response and throw a handled error), or an unhandled JavaScript
exception. -/
inductive Failure where
  | badRequest (description : String)
  | unauthorized (realm : Option String) (error : Option String) (description : Option String)
  | forbidden (realm : Option String) (error : Option String) (description : Option String)
  | jsError (message : String)
deriving DecidableEq, Repr

/-- Pipeline state threaded through the promise chain: the request,
the effective options, and the mutable token, tokenType and credential
fields of the AuthenticatedRequest instance. -/
structure St where
  req : Req
  options : Options
  token : Option String
  tokenType : Option String
  credential : Option Credential

/-- Outward HTTP outcome of one authenticate run: control passed to
the downstream middleware (success, with the final request state), or
a response with a status code and the challenge error parameters. -/
inductive Outcome where
  | success (st : St)
  | response (status : Nat) (error : Option String) (description : Option String)

/-- Mapping from a thrown failure to the outward response
(src/AuthenticatedRequest.js: badRequest writes 400 invalid_request,
unauthorized writes 401 with the given challenge parameters, forbidden
writes 403, and an unhandled exception reaches internalServerError,
a bare 500). -/
def failureToOutcome : Failure → Outcome
  | .badRequest d => .response 400 (some "invalid_request") (some d)
  | .unauthorized _ e d => .response 401 e d
  | .forbidden _ e d => .response 403 e d
  | .jsError _ => .response 500 none none

/-- Authorization header validation (src/AuthenticatedRequest.js,
lines 97-130): splits the header on spaces, requires exactly two
components, compares the scheme case-insensitively against the
supported token types, records tokenType and the raw credentials. -/
def validateAuthorizationHeader (st : St) : Except Failure St :=
  match getTruthy st.req.headers.authorization with
  | none => .ok st
  | some a =>
    if (getTruthy st.token).isSome then
      .error (.badRequest "Multiple authentication methods")
    else
      if (jsSplit a ' ').length ≠ 2 then
        .error (.badRequest "Invalid authorization header")
      else if jsToLower ((jsSplit a ' ').getD 0 "") = "bearer" ∧
          st.options.tokenTypesSupported.contains "legacyPop" then
        .ok { st with tokenType := some "bearer",
                      token := some ((jsSplit a ' ').getD 1 "") }
      else if jsToLower ((jsSplit a ' ').getD 0 "") = "dpop" ∧
          st.options.tokenTypesSupported.contains "dpop" then
        .ok { st with tokenType := some "dpop",
                      token := some ((jsSplit a ' ').getD 1 "") }
      else
        .error (.badRequest "Invalid authorization scheme")

/-- Query parameter validation (src/AuthenticatedRequest.js, lines
145-174): a query access_token is rejected unless the query option is
strictly true, then rejected if a token was already extracted. -/
def validateQueryParameter (st : St) : Except Failure St :=
  match getTruthy st.req.queryToken with
  | none => .ok st
  | some p =>
    if !st.options.query then
      .error (.badRequest "Invalid authentication method")
    else if (getTruthy st.token).isSome then
      .error (.badRequest "Multiple authentication methods")
    else
      .ok { st with token := some p }

/-- Body parameter validation (src/AuthenticatedRequest.js, lines
187-205): rejects a second credential, then requires the Content-Type
to include application/x-www-form-urlencoded; when the header is
absent the source calls includes on undefined, an uncaught
TypeError. -/
def validateBodyParameter (st : St) : Except Failure St :=
  match getTruthy st.req.bodyToken with
  | none => .ok st
  | some p =>
    if (getTruthy st.token).isSome then
      .error (.badRequest "Multiple authentication methods")
    else
      match st.req.headers.contentType with
      | none =>
        .error (.jsError "TypeError: Cannot read properties of undefined (reading includes)")
      | some ct =>
        if !strIncludes ct "application/x-www-form-urlencoded" then
          .error (.badRequest "Invalid Content-Type")
        else
          .ok { st with token := some p }

/-- Token requirement (src/AuthenticatedRequest.js, lines 218-227):
a missing token with optional not strictly true yields a bare 401
challenge carrying only the realm. -/
def requireAccessToken (st : St) : Except Failure St :=
  if (getTruthy st.token).isNone && !st.options.optional then
    .error (.unauthorized st.options.realm none none)
  else
    .ok st

/-- JWT decoding (src/AuthenticatedRequest.js, lines 270-292): a
failed JWT.decode yields 401 invalid_token, then the credential
variant is constructed. An absent token would make JWT.decode throw
as well. -/
def decodeStep (env : Env) (st : St) : Except Failure St :=
  match st.token with
  | none =>
    .error (.unauthorized st.options.realm (some "invalid_token") (some "Access token is not a JWT"))
  | some t =>
    match env.decode t with
    | none =>
      .error (.unauthorized st.options.realm (some "invalid_token") (some "Access token is not a JWT"))
    | some jwt =>
      .ok { st with credential := some (Credential.fromJwt jwt st.tokenType st.req st.options) }

/-- PoP validation step (src/AuthenticatedRequest.js, lines 304-322):
skipped for non-PoP credentials; on rejection the challenge defaults
absent error to invalid_token and absent description to the text
Invalid PoP token. -/
def validatePoPTokenStep (env : Env) (st : St) : Except Failure St :=
  match st.credential with
  | none => .error (.jsError "TypeError: credential is undefined")
  | some c =>
    if !c.isPoPToken then
      .ok st
    else
      match credValidatePoP env c with
      | .ok _ => .ok st
      | .error e =>
        .error (.unauthorized st.options.realm
          (some (e.error.getD "invalid_token"))
          (some (e.error_description.getD "Invalid PoP token")))

/-- Audience allow filter (src/AuthenticatedRequest.js, lines 365-400,
allowAudience): an absent filter passes; a function filter is applied
to the aud claim; a list filter requires overlap for a list aud and
membership for a string aud; an absent aud claim passes a list
filter. -/
def allowAudienceCheck (realm : Option String) (a : AllowOpt) (aud : Aud) :
    Except Failure Unit :=
  match a.audience with
  | none => .ok ()
  | some (.fn f) =>
    if f aud then .ok ()
    else .error (.forbidden realm (some "access_denied")
      (some "Token does not pass the audience allow filter"))
  | some (.list audience) =>
    match aud with
    | .arr l =>
      if !audience.any (fun id => l.contains id) then
        .error (.forbidden realm (some "access_denied")
          (some "Audience is not on the allowed list"))
      else .ok ()
    | .str s =>
      if !audience.contains s then
        .error (.forbidden realm (some "access_denied")
          (some "Audience is not on the allowed list"))
      else .ok ()
    | .missing => .ok ()

/-- Issuer allow filter (src/AuthenticatedRequest.js, lines 412-439,
allowIssuer). -/
def allowIssuerCheck (realm : Option String) (a : AllowOpt) (iss : String) :
    Except Failure Unit :=
  match a.issuers with
  | none => .ok ()
  | some (.fn f) =>
    if f iss then .ok ()
    else .error (.forbidden realm (some "access_denied")
      (some "Token does not pass the issuer allow filter"))
  | some (.list issuers) =>
    if !issuers.contains iss then
      .error (.forbidden realm (some "access_denied")
        (some "Issuer is not on the allowed list"))
    else .ok ()

/-- Subject allow filter (src/AuthenticatedRequest.js, lines 451-478,
allowSubject). -/
def allowSubjectCheck (realm : Option String) (a : AllowOpt) (sub : String) :
    Except Failure Unit :=
  match a.subjects with
  | none => .ok ()
  | some (.fn f) =>
    if f sub then .ok ()
    else .error (.forbidden realm (some "access_denied")
      (some "Token does not pass the subject allow filter"))
  | some (.list subjects) =>
    if !subjects.contains sub then
      .error (.forbidden realm (some "access_denied")
        (some "Subject is not on the allowed list"))
    else .ok ()

/-- Allow step (src/AuthenticatedRequest.js, lines 337-353): absent
allow option passes; the audience filter runs only for the bearer
token type; then issuer then subject filters. -/
def allowStep (st : St) : Except Failure St :=
  match st.options.allow with
  | none => .ok st
  | some a =>
    match st.credential with
    | none => .error (.jsError "TypeError: credential is undefined")
    | some c =>
      match (if st.tokenType = some "bearer"
             then allowAudienceCheck st.options.realm a c.aud
             else .ok ()) with
      | .error f => .error f
      | .ok _ =>
        match allowIssuerCheck st.options.realm a c.iss with
        | .error f => .error f
        | .ok _ =>
          match allowSubjectCheck st.options.realm a c.sub with
          | .error f => .error f
          | .ok _ => .ok st

/-- Deny subjects tail of the deny step (src/AuthenticatedRequest.js,
lines 526-534). -/
def denySubjectsCheck (st : St) (d : DenyOpt) (sub : String) : Except Failure St :=
  match d.subjects with
  | some subjects =>
    if subjects.contains sub then
      .error (.forbidden st.options.realm (some "access_denied")
        (some "Subject is on the deny blacklist"))
    else .ok st
  | none => .ok st

/-- Deny step (src/AuthenticatedRequest.js, lines 491-535): absent
deny option passes; issuer membership is guarded by presence of the
issuers list, but the audience checks dereference deny.audience
unconditionally once the aud claim is a list (audience.some) or a
string (audience.includes), an uncaught TypeError when the deny
configuration omits audience. -/
def denyStep (st : St) : Except Failure St :=
  match st.options.deny with
  | none => .ok st
  | some d =>
    match st.credential with
    | none => .error (.jsError "TypeError: credential is undefined")
    | some c =>
      if (match d.issuers with
          | some issuers => issuers.contains c.iss
          | none => false) then
        .error (.forbidden st.options.realm (some "access_denied")
          (some "Issuer is on the deny blacklist"))
      else
        match c.aud, d.audience with
        | .arr _, none =>
          .error (.jsError "TypeError: Cannot read properties of undefined (reading some)")
        | .arr l, some audience =>
          if audience.any (fun id => l.contains id) then
            .error (.forbidden st.options.realm (some "access_denied")
              (some "Audience is on the deny blacklist"))
          else
            denySubjectsCheck st d c.sub
        | .str _, none =>
          .error (.jsError "TypeError: Cannot read properties of undefined (reading includes)")
        | .str s, some audience =>
          if audience.contains s then
            .error (.forbidden st.options.realm (some "access_denied")
              (some "Audience is on the deny blacklist"))
          else
            denySubjectsCheck st d c.sub
        | .missing, _ =>
          denySubjectsCheck st d c.sub

/-- Observable calls made by the key resolution step. -/
inductive Event where
  | resolveCall (iss : String)
  | resolveKeysCall (jwks : String)
  | rotateCall (iss : String)
deriving DecidableEq, Repr

/-- Key resolution (src/AuthenticatedRequest.js, lines 558-587,
resolveKeys): resolve the provider for the iss claim, try
credential.resolveKeys on its jwks; on a miss rotate the provider and
retry exactly once; a second miss yields 401 invalid_token with the
fixed description. The second component records the calls made. -/
def resolveKeysStep (env : Env) (st : St) : Except Failure St × List Event :=
  match st.credential with
  | none => (.error (.jsError "TypeError: credential is undefined"), [])
  | some c =>
    match env.resolve c.iss with
    | .error m => (.error (.jsError m), [.resolveCall c.iss])
    | .ok provider =>
      if env.resolveKeys provider.jwks then
        (.ok st, [.resolveCall c.iss, .resolveKeysCall provider.jwks])
      else
        match env.rotate c.iss with
        | .error m =>
          (.error (.jsError m),
           [.resolveCall c.iss, .resolveKeysCall provider.jwks, .rotateCall c.iss])
        | .ok provider2 =>
          if env.resolveKeys provider2.jwks then
            (.ok st,
             [.resolveCall c.iss, .resolveKeysCall provider.jwks,
              .rotateCall c.iss, .resolveKeysCall provider2.jwks])
          else
            (.error (.unauthorized st.options.realm (some "invalid_token")
               (some "Cannot find key to verify JWT signature")),
             [.resolveCall c.iss, .resolveKeysCall provider.jwks,
              .rotateCall c.iss, .resolveKeysCall provider2.jwks])

/-- Signature verification step (src/AuthenticatedRequest.js, lines
599-609): a false return from credential.verifySignature yields a
bare 401 challenge with only the realm. -/
def verifySignatureStep (env : Env) (st : St) : Except Failure St :=
  match st.credential with
  | none => .error (.jsError "TypeError: credential is undefined")
  | some c =>
    if env.verifySig c.jwt then .ok st
    else .error (.unauthorized st.options.realm none none)

/-- Modelled from the spec: AccessToken.validateExpiry is not among
the sources; per spec section 4.2 it compares exp against the current
wall clock with no skew (spec section 8 requires exp strictly greater
than now) and fails with an invalid_token error kind carrying a
description; an absent exp claim is not rejected here. -/
def validateExpiryCred (now : Nat) (jwt : Jwt) : Except ErrObj Unit :=
  match jwt.payload.exp with
  | none => .ok ()
  | some e =>
    if e ≤ now then .error ⟨some "invalid_token", some "Access token is expired"⟩
    else .ok ()

/-- Expiry step (src/AuthenticatedRequest.js, lines 621-635): a
rejection is forwarded as a 401 with the error fields of the thrown
error. -/
def validateExpiryStep (env : Env) (st : St) : Except Failure St :=
  match st.credential with
  | none => .error (.jsError "TypeError: credential is undefined")
  | some c =>
    match validateExpiryCred env.now c.jwt with
    | .ok _ => .ok st
    | .error e => .error (.unauthorized st.options.realm e.error e.error_description)

/-- Modelled from the spec: AccessToken.validateNotBefore is not among
the sources; per spec section 4.2 it requires nbf to be at most now
and fails with an invalid_token error kind; an absent nbf claim is not
rejected here. -/
def validateNotBeforeCred (now : Nat) (jwt : Jwt) : Except ErrObj Unit :=
  match jwt.payload.nbf with
  | none => .ok ()
  | some n =>
    if now < n then .error ⟨some "invalid_token", some "Access token is not yet active"⟩
    else .ok ()

/-- Not-before step (src/AuthenticatedRequest.js, lines 647-661). -/
def validateNotBeforeStep (env : Env) (st : St) : Except Failure St :=
  match st.credential with
  | none => .error (.jsError "TypeError: credential is undefined")
  | some c =>
    match validateNotBeforeCred env.now c.jwt with
    | .ok _ => .ok st
    | .error e => .error (.unauthorized st.options.realm e.error e.error_description)

/-- Scopes granted by a JWT: the scope claim split on spaces; an
absent claim grants only the empty-name scope of splitting the empty
string. -/
def tokenScopes (jwt : Jwt) : List String :=
  jsSplit (jwt.payload.scope.getD "") ' '

/-- Modelled from the spec: AccessToken.validateScope is not among the
sources; per spec section 4.2 an absent or empty required list passes,
otherwise every required scope must occur in the scope claim split on
whitespace; failure carries the insufficient_scope error kind. -/
def validateScopeCred (scopes : Option (List String)) (jwt : Jwt) : Except ErrObj Unit :=
  match scopes with
  | none => .ok ()
  | some required =>
    if required.isEmpty then .ok ()
    else if required.all (fun s => (tokenScopes jwt).contains s) then .ok ()
    else .error ⟨some "insufficient_scope", some "Access token has insufficient scope"⟩

/-- Scope step (src/AuthenticatedRequest.js, lines 674-688): a
rejection is forwarded as a 403 with the error fields of the thrown
error. -/
def validateScopeStep (_env : Env) (st : St) : Except Failure St :=
  match st.credential with
  | none => .error (.jsError "TypeError: credential is undefined")
  | some c =>
    match validateScopeCred st.options.scopes c.jwt with
    | .ok _ => .ok st
    | .error e => .error (.forbidden st.options.realm e.error e.error_description)

/-- Access token validation chain (src/AuthenticatedRequest.js, lines
239-257): pass-through when optional and no token; otherwise decode,
PoP check, allow, deny, key resolution, signature, expiry, not-before,
scope, in that order, short-circuiting on the first failure. -/
def validateAccessToken (env : Env) (st : St) : Except Failure St × List Event :=
  if st.options.optional && (getTruthy st.token).isNone then
    (.ok st, [])
  else
    match decodeStep env st with
    | .error f => (.error f, [])
    | .ok st1 =>
      match validatePoPTokenStep env st1 with
      | .error f => (.error f, [])
      | .ok st2 =>
        match allowStep st2 with
        | .error f => (.error f, [])
        | .ok st3 =>
          match denyStep st3 with
          | .error f => (.error f, [])
          | .ok st4 =>
            match resolveKeysStep env st4 with
            | (.error f, tr) => (.error f, tr)
            | (.ok st5, tr) =>
              match verifySignatureStep env st5 with
              | .error f => (.error f, tr)
              | .ok st6 =>
                match validateExpiryStep env st6 with
                | .error f => (.error f, tr)
                | .ok st7 =>
                  match validateNotBeforeStep env st7 with
                  | .error f => (.error f, tr)
                  | .ok st8 =>
                    match validateScopeStep env st8 with
                    | .error f => (.error f, tr)
                    | .ok st9 => (.ok st9, tr)

/-- Tail of the extraction phase after the Authorization header step:
query parameter, body parameter, then the token requirement. -/
def extractTail (st : St) : Except Failure St :=
  match validateQueryParameter st with
  | .error f => .error f
  | .ok s2 =>
    match validateBodyParameter s2 with
    | .error f => .error f
    | .ok s3 => requireAccessToken s3

/-- Credential extraction and requirement phase
(src/AuthenticatedRequest.js, lines 76-80 of the authenticate chain,
up to requireAccessToken). -/
def extractPhase (st : St) : Except Failure St :=
  match validateAuthorizationHeader st with
  | .error f => .error f
  | .ok s1 => extractTail s1

/-- Full middleware run (src/AuthenticatedRequest.js, lines 69-84,
authenticate): builds the instance with the forced options, runs the
chain, and maps a thrown failure to its response; on success control
passes to the downstream middleware with the final state. -/
def authenticate (env : Env) (req : Req) (options : Options) : Outcome × List Event :=
  let st0 : St :=
    { req := req, options := mkOptions options,
      token := none, tokenType := none, credential := none }
  match extractPhase st0 with
  | .error f => (failureToOutcome f, [])
  | .ok st =>
    match validateAccessToken env st with
    | (.error f, tr) => (failureToOutcome f, tr)
    | (.ok st', tr) => (.success st', tr)

/-- Issuer membership in the deny configuration. -/
def issuerDenied (d : DenyOpt) (iss : String) : Bool :=
  match d.issuers with
  | some issuers => issuers.contains iss
  | none => false

/-- Subject membership in the deny configuration. -/
def subjectDenied (d : DenyOpt) (sub : String) : Bool :=
  match d.subjects with
  | some subjects => subjects.contains sub
  | none => false

/-- Audience match against a present deny audience list: overlap for a
list aud, membership for a string aud. -/
def audienceDeniedBy (audience : List String) (aud : Aud) : Bool :=
  match aud with
  | .arr l => audience.any (fun id => l.contains id)
  | .str s => audience.contains s
  | .missing => false

/-- The condition under which the deny step dereferences an absent
deny.audience: the aud claim is a list or a string while the deny
configuration omits audience. -/
def audDerefCrashes (d : DenyOpt) (aud : Aud) : Bool :=
  match aud, d.audience with
  | .arr _, none => true
  | .str _, none => true
  | _, _ => false

/-- At least two of three propositions hold. -/
def atLeastTwo (a b c : Prop) : Prop := (a ∧ b) ∨ (a ∧ c) ∨ (b ∧ c)

/-- Happy-path JWT: bearer access token with future exp, past nbf and
two granted scopes. -/
def jwtHappy : Jwt :=
  ⟨{ iss := "https://op.example", aud := .missing, sub := "alice",
     exp := some 2000, nbf := some 0, scope := some "read write",
     token_type := none, cnf := none }⟩

/-- Happy-path request carrying a bearer Authorization header. -/
def reqHappy : Req :=
  { headers := { authorization := some "Bearer tok", contentType := none,
                 dpop := none, host := "rs.example" },
    queryToken := none, bodyToken := none, method := "GET", path := "/r" }

/-- Happy-path options requiring the read scope. -/
def optsHappy : Options :=
  { query := false, optional := false, realm := some "https://rs.example",
    allow := none, deny := none, scopes := some ["read"],
    tokenTypesSupported := [] }

/-- Happy-path environment: the token decodes to jwtHappy, the first
provider jwks matches, the signature verifies, the clock reads 1000. -/
def envHappy : Env :=
  { decode := fun t => if t = "tok" then some jwtHappy else none,
    decodeDpop := fun _ => none,
    verifyDpop := fun _ _ => true,
    verifyErrMsg := "bad signature",
    thumbprint := fun _ => "tp",
    resolve := fun _ => .ok ⟨"jwks1"⟩,
    rotate := fun _ => .ok ⟨"jwks2"⟩,
    resolveKeys := fun j => j == "jwks1",
    verifySig := fun _ => true,
    legacyPop := fun _ => .ok (),
    now := 1000 }

/-- Final pipeline state of the happy-path run. -/
def stHappy : St :=
  { req := reqHappy, options := mkOptions optsHappy, token := some "tok",
    tokenType := some "bearer", credential := some (.accessToken jwtHappy) }

/-- Call trace of the happy-path key resolution. -/
def trHappy : List Event :=
  [.resolveCall "https://op.example", .resolveKeysCall "jwks1"]

/-- Happy-path credential. -/
def cHappy : Credential := .accessToken jwtHappy

/-- DPoP-bound access token whose cnf.jkt is the thumbprint tp1. -/
def jwtDpop : Jwt :=
  ⟨{ iss := "https://op.example", aud := .missing, sub := "alice",
     exp := none, nbf := none, scope := none,
     token_type := none, cnf := some ⟨some "tp1"⟩ }⟩

/-- DPoP request: POST with a DPoP Authorization scheme and a DPoP
header. -/
def reqDpop : Req :=
  { headers := { authorization := some "DPoP tok", contentType := none,
                 dpop := some "dpophdr", host := "rs.example" },
    queryToken := none, bodyToken := none, method := "POST", path := "/resource" }

/-- The same DPoP request with method GET, matching the proof htm. -/
def reqDpopGet : Req := { reqDpop with method := "GET" }

/-- Options for the DPoP runs: the realm doubles as the server URI. -/
def optsDpop : Options :=
  { query := false, optional := false, realm := some "https://rs.example",
    allow := none, deny := none, scopes := none, tokenTypesSupported := [] }

/-- DPoP environment: the proof decodes with jwk1, htu of the resource
and htm GET; the thumbprint of jwk1 is tp1. -/
def envDpop : Env :=
  { decode := fun t => if t = "tok" then some jwtDpop else none,
    decodeDpop := fun h =>
      if h = some "dpophdr" then
        some ⟨some "jwk1", some "https://rs.example/resource", some "GET"⟩
      else none,
    verifyDpop := fun _ _ => true,
    verifyErrMsg := "bad signature",
    thumbprint := fun k => if k = "jwk1" then "tp1" else "tpX",
    resolve := fun _ => .ok ⟨"jwks1"⟩,
    rotate := fun _ => .ok ⟨"jwks2"⟩,
    resolveKeys := fun j => j == "jwks1",
    verifySig := fun _ => true,
    legacyPop := fun _ => .ok (),
    now := 1000 }

/-- DPoP environment whose proof carries a foreign htu. -/
def envDpopHtu : Env :=
  { envDpop with
    decodeDpop := fun h =>
      if h = some "dpophdr" then
        some ⟨some "jwk1", some "https://other.example/x", some "GET"⟩
      else none }

/-- Trivial environment for runs that fail before reaching it. -/
def envTriv : Env :=
  { decode := fun _ => none,
    decodeDpop := fun _ => none,
    verifyDpop := fun _ _ => false,
    verifyErrMsg := "bad signature",
    thumbprint := fun _ => "tp",
    resolve := fun _ => .error "network error",
    rotate := fun _ => .error "network error",
    resolveKeys := fun _ => false,
    verifySig := fun _ => false,
    legacyPop := fun _ => .ok (),
    now := 0 }

/-- Access token whose aud claim is a list. -/
def jwtAudArr : Jwt :=
  ⟨{ iss := "https://op.example", aud := .arr ["a"], sub := "alice",
     exp := none, nbf := none, scope := none, token_type := none, cnf := none }⟩

/-- State with a deny option that omits audience while the credential
aud claim is a list. -/
def stDenyCrash : St :=
  { req := reqHappy,
    options := { optsHappy with deny := some ⟨none, none, none⟩ },
    token := some "tok", tokenType := some "bearer",
    credential := some (.accessToken jwtAudArr) }

/-- Fully populated deny configuration matching none of the happy
claims. -/
def dFull : DenyOpt :=
  ⟨some ["https://evil.example"], some ["client1"], some ["bob"]⟩

/-- State carrying the full deny configuration and the happy
credential. -/
def stDenyFull : St :=
  { req := reqHappy, options := { optsHappy with deny := some dFull },
    token := some "tok", tokenType := some "bearer",
    credential := some cHappy }

/-- Request presenting a body access_token with no Content-Type header
at all. -/
def reqBodyNoCt : Req :=
  { headers := { authorization := none, contentType := none,
                 dpop := none, host := "rs.example" },
    queryToken := none, bodyToken := some "tok", method := "POST", path := "/r" }

/-- Request presenting a body access_token under a JSON Content-Type. -/
def reqBodyJson : Req :=
  { headers := { authorization := none, contentType := some "application/json",
                 dpop := none, host := "rs.example" },
    queryToken := none, bodyToken := some "tok", method := "POST", path := "/r" }

/-- Request presenting both an Authorization header and a body
access_token. -/
def reqMulti : Req :=
  { headers := { authorization := some "Bearer tok",
                 contentType := some "application/json",
                 dpop := none, host := "rs.example" },
    queryToken := none, bodyToken := some "tok2", method := "POST", path := "/r" }


/-- Initial pipeline state built by authenticate for a request and
caller options. -/
def initSt (req : Req) (opts : Options) : St :=
  { req := req, options := mkOptions opts,
    token := none, tokenType := none, credential := none }

/-- The Authorization header location yields a credential: the header
is present, splits into exactly a scheme and a nonempty credentials
part, and the scheme is bearer or dpop case-insensitively. -/
def headerYields (req : Req) : Prop :=
  ∃ a s cred, getTruthy req.headers.authorization = some a ∧
    jsSplit a ' ' = [s, cred] ∧ cred ≠ "" ∧
    (jsToLower s = "bearer" ∨ jsToLower s = "dpop")

/-- The query location yields a credential: the parameter is present
and the query option is enabled. -/
def queryYields (req : Req) (opts : Options) : Prop :=
  opts.query = true ∧ ∃ q, getTruthy req.queryToken = some q

/-- The body location yields a credential. -/
def bodyYields (req : Req) : Prop :=
  ∃ b, getTruthy req.bodyToken = some b

/-- Initial state for a bearer-header request used as concrete
witness input. -/
def stAuthW : St := initSt reqHappy optsHappy

/-- Request with a yielding bearer header, a yielding body parameter,
and a stray query access_token while the query option stays disabled. -/
def reqStrayQuery : Req :=
  { headers := { authorization := some "Bearer tok",
                 contentType := some "application/json",
                 dpop := none, host := "rs.example" },
    queryToken := some "qq", bodyToken := some "tok2",
    method := "POST", path := "/r" }

/-- Request with a malformed one-component Authorization header
alongside yielding query and body parameters. -/
def reqBadHeader : Req :=
  { headers := { authorization := some "Bearer",
                 contentType := some "application/json",
                 dpop := none, host := "rs.example" },
    queryToken := some "qq", bodyToken := some "tok2",
    method := "POST", path := "/r" }

/-- Options with the query location enabled. -/
def optsQueryOn : Options := { optsHappy with query := true }

lemma fromJwt_jwt (jwt : Jwt) (tokenType : Option String) (req : Req) (options : Options) :
    (Credential.fromJwt jwt tokenType req options).jwt = jwt := by
  unfold Credential.fromJwt
  split
  · rfl
  · split <;> rfl

lemma vah_ok {st st' : St} (h : validateAuthorizationHeader st = .ok st') :
    st'.credential = st.credential ∧ st'.req = st.req ∧ st'.options = st.options := by
  unfold validateAuthorizationHeader at h
  split at h
  · cases h; exact ⟨rfl, rfl, rfl⟩
  · split at h
    · exact Except.noConfusion h
    · split at h
      · exact Except.noConfusion h
      · split at h
        · cases h; exact ⟨rfl, rfl, rfl⟩
        · split at h
          · cases h; exact ⟨rfl, rfl, rfl⟩
          · exact Except.noConfusion h

lemma vqp_ok {st st' : St} (h : validateQueryParameter st = .ok st') :
    st'.credential = st.credential ∧ st'.req = st.req ∧ st'.options = st.options := by
  unfold validateQueryParameter at h
  split at h
  · cases h; exact ⟨rfl, rfl, rfl⟩
  · split at h
    · exact Except.noConfusion h
    · split at h
      · exact Except.noConfusion h
      · cases h; exact ⟨rfl, rfl, rfl⟩

lemma vbp_ok {st st' : St} (h : validateBodyParameter st = .ok st') :
    st'.credential = st.credential ∧ st'.req = st.req ∧ st'.options = st.options := by
  unfold validateBodyParameter at h
  split at h
  · cases h; exact ⟨rfl, rfl, rfl⟩
  · split at h
    · exact Except.noConfusion h
    · split at h
      · exact Except.noConfusion h
      · split at h
        · exact Except.noConfusion h
        · cases h; exact ⟨rfl, rfl, rfl⟩

lemma require_ok {st st' : St} (h : requireAccessToken st = .ok st') : st' = st := by
  unfold requireAccessToken at h
  split at h
  · exact Except.noConfusion h
  · cases h; rfl

lemma extractTail_ok {st st' : St} (h : extractTail st = .ok st') :
    st'.credential = st.credential ∧ st'.req = st.req ∧ st'.options = st.options := by
  unfold extractTail at h
  split at h
  · exact Except.noConfusion h
  · rename_i s2 h2
    split at h
    · exact Except.noConfusion h
    · rename_i s3 h3
      have e2 := vqp_ok h2
      have e3 := vbp_ok h3
      have e4 := require_ok h
      subst e4
      exact ⟨e3.1.trans e2.1, e3.2.1.trans e2.2.1, e3.2.2.trans e2.2.2⟩

lemma extract_ok {st st' : St} (h : extractPhase st = .ok st') :
    st'.credential = st.credential ∧ st'.req = st.req ∧ st'.options = st.options := by
  unfold extractPhase at h
  split at h
  · exact Except.noConfusion h
  · rename_i s1 h1
    have e1 := vah_ok h1
    have e2 := extractTail_ok h
    exact ⟨e2.1.trans e1.1, e2.2.1.trans e1.2.1, e2.2.2.trans e1.2.2⟩

lemma decodeStep_ok {env : Env} {st st' : St} (h : decodeStep env st = .ok st') :
    ∃ t jwt, st.token = some t ∧ env.decode t = some jwt ∧
      st' = { st with credential := some (Credential.fromJwt jwt st.tokenType st.req st.options) } := by
  unfold decodeStep at h
  split at h
  · exact Except.noConfusion h
  · rename_i t ht
    split at h
    · exact Except.noConfusion h
    · rename_i jwt hjwt
      cases h
      exact ⟨t, jwt, ht, hjwt, rfl⟩

lemma popStep_ok {env : Env} {st st' : St} (h : validatePoPTokenStep env st = .ok st') :
    st' = st ∧ ∀ c, st.credential = some c → c.isPoPToken = true →
      credValidatePoP env c = .ok () := by
  unfold validatePoPTokenStep at h
  split at h
  · exact Except.noConfusion h
  · rename_i c hc
    split at h
    · cases h
      refine ⟨rfl, fun c' hc' hpop => ?_⟩
      rw [hc] at hc'
      cases hc'
      simp_all
    · split at h
      · rename_i u hu
        cases h
        refine ⟨rfl, fun c' hc' _ => ?_⟩
        rw [hc] at hc'
        cases hc'
        cases u
        exact hu
      · exact Except.noConfusion h

lemma allowStep_ok {st st' : St} (h : allowStep st = .ok st') : st' = st := by
  unfold allowStep at h
  split at h
  · cases h; rfl
  · split at h
    · exact Except.noConfusion h
    · split at h
      · exact Except.noConfusion h
      · split at h
        · exact Except.noConfusion h
        · split at h
          · exact Except.noConfusion h
          · cases h; rfl

lemma denySubjectsCheck_ok {st st' : St} {d : DenyOpt} {s : String}
    (h : denySubjectsCheck st d s = .ok st') : st' = st := by
  unfold denySubjectsCheck at h
  split at h
  · split at h
    · exact Except.noConfusion h
    · cases h; rfl
  · cases h; rfl

lemma denyStep_ok {st st' : St} (h : denyStep st = .ok st') : st' = st := by
  unfold denyStep at h
  split at h
  · cases h; rfl
  · split at h
    · exact Except.noConfusion h
    · split at h
      · exact Except.noConfusion h
      · split at h
        · exact Except.noConfusion h
        · split at h
          · exact Except.noConfusion h
          · exact denySubjectsCheck_ok h
        · exact Except.noConfusion h
        · split at h
          · exact Except.noConfusion h
          · exact denySubjectsCheck_ok h
        · exact denySubjectsCheck_ok h

lemma resolveKeysStep_ok {env : Env} {st st' : St} {tr : List Event}
    (h : resolveKeysStep env st = (.ok st', tr)) :
    st' = st ∧ ∀ c, st.credential = some c →
      ∃ p, env.resolve c.iss = .ok p ∧
        (env.resolveKeys p.jwks = true ∨
         ∃ p2, env.rotate c.iss = .ok p2 ∧ env.resolveKeys p2.jwks = true) := by
  unfold resolveKeysStep at h
  split at h
  · simp at h
  · rename_i c hc
    split at h
    · simp at h
    · rename_i p hp
      split at h
      · rename_i hk
        injection h with h1 h2
        injection h1 with h1
        subst h1
        refine ⟨rfl, fun c' hc' => ?_⟩
        rw [hc] at hc'
        cases hc'
        exact ⟨p, hp, Or.inl hk⟩
      · split at h
        · simp at h
        · rename_i p2 hp2
          split at h
          · rename_i hk2
            injection h with h1 h2
            injection h1 with h1
            subst h1
            refine ⟨rfl, fun c' hc' => ?_⟩
            rw [hc] at hc'
            cases hc'
            exact ⟨p, hp, Or.inr ⟨p2, hp2, hk2⟩⟩
          · simp at h

lemma verifyStep_ok {env : Env} {st st' : St} (h : verifySignatureStep env st = .ok st') :
    st' = st ∧ ∀ c, st.credential = some c → env.verifySig c.jwt = true := by
  unfold verifySignatureStep at h
  split at h
  · exact Except.noConfusion h
  · rename_i c hc
    split at h
    · rename_i hv
      cases h
      refine ⟨rfl, fun c' hc' => ?_⟩
      rw [hc] at hc'
      cases hc'
      exact hv
    · exact Except.noConfusion h

lemma expiryStep_ok {env : Env} {st st' : St} (h : validateExpiryStep env st = .ok st') :
    st' = st ∧ ∀ c, st.credential = some c →
      ∀ e, c.jwt.payload.exp = some e → env.now < e := by
  unfold validateExpiryStep at h
  split at h
  · exact Except.noConfusion h
  · rename_i c hc
    split at h
    · rename_i u hu
      cases h
      refine ⟨rfl, fun c' hc' e he => ?_⟩
      rw [hc] at hc'
      cases hc'
      unfold validateExpiryCred at hu
      split at hu
      · rename_i hnone
        rw [he] at hnone
        exact Option.noConfusion hnone
      · rename_i e' he'
        split at hu
        · exact Except.noConfusion hu
        · rename_i hgt
          rw [he'] at he
          injection he with he
          omega
    · exact Except.noConfusion h

lemma nbfStep_ok {env : Env} {st st' : St} (h : validateNotBeforeStep env st = .ok st') :
    st' = st ∧ ∀ c, st.credential = some c →
      ∀ n, c.jwt.payload.nbf = some n → n ≤ env.now := by
  unfold validateNotBeforeStep at h
  split at h
  · exact Except.noConfusion h
  · rename_i c hc
    split at h
    · rename_i u hu
      cases h
      refine ⟨rfl, fun c' hc' n hn => ?_⟩
      rw [hc] at hc'
      cases hc'
      unfold validateNotBeforeCred at hu
      split at hu
      · rename_i hnone
        rw [hn] at hnone
        exact Option.noConfusion hnone
      · rename_i n' hn'
        split at hu
        · exact Except.noConfusion hu
        · rename_i hle
          rw [hn'] at hn
          injection hn with hn
          omega
    · exact Except.noConfusion h

lemma scopeStep_ok {env : Env} {st st' : St} (h : validateScopeStep env st = .ok st') :
    st' = st ∧ ∀ c, st.credential = some c →
      ∀ required, st.options.scopes = some required →
        ∀ s ∈ required, s ∈ tokenScopes c.jwt := by
  unfold validateScopeStep at h
  split at h
  · exact Except.noConfusion h
  · rename_i c hc
    split at h
    · rename_i u hu
      cases h
      refine ⟨rfl, fun c' hc' required hreq s hs => ?_⟩
      rw [hc] at hc'
      cases hc'
      unfold validateScopeCred at hu
      split at hu
      · rename_i hnone
        rw [hreq] at hnone
        exact Option.noConfusion hnone
      · rename_i req' hreq'
        rw [hreq'] at hreq
        injection hreq with hreq
        subst hreq
        split at hu
        · rename_i hemp
          rw [List.isEmpty_iff] at hemp
          subst hemp
          exact absurd hs (List.not_mem_nil s)
        · split at hu
          · rename_i hall
            have hcon := List.all_eq_true.mp hall s hs
            exact List.elem_iff.mp (by simpa using hcon)
          · exact Except.noConfusion hu
    · exact Except.noConfusion h

lemma jsIndex_rev (l : List String) (j : Nat) :
    jsIndex l ((l.length : Int) - (j + 1)) = l.reverse.get? j := by
  unfold jsIndex
  by_cases hj : j < l.length
  · rw [if_neg (by omega)]
    have h2 : ((l.length : Int) - (j + 1)).toNat = l.length - 1 - j := by omega
    rw [h2, List.get?_eq_getElem?, ← List.getElem?_reverse hj, ← List.get?_eq_getElem?]
  · rw [if_pos (by omega)]
    symm
    exact List.get?_eq_none.mpr (by simp only [List.length_reverse]; omega)

lemma isSubdomain_iff (domain subdomain : String) :
    isSubdomain domain subdomain = true ↔
      ∀ j < (jsSplit domain '.').length,
        (jsSplit subdomain '.').reverse.get? j = (jsSplit domain '.').reverse.get? j := by
  simp only [isSubdomain]
  rw [List.all_eq_true]
  constructor
  · intro h j hj
    have hb := h j (List.mem_range.mpr hj)
    rw [jsIndex_rev, jsIndex_rev] at hb
    exact eq_of_beq hb
  · intro h j hj
    rw [jsIndex_rev, jsIndex_rev]
    exact beq_iff_eq.mpr (h j (List.mem_range.mp hj))

lemma getTruthy_some {x : Option String} {s : String} (h : getTruthy x = some s) :
    getTruthy (some s) = some s := by
  cases x with
  | none => simp [getTruthy] at h
  | some t =>
    by_cases ht : t = ""
    · simp [getTruthy, ht] at h
    · simp [getTruthy, ht] at h
      subst h
      simp [getTruthy, ht]

lemma authenticate_def (env : Env) (req : Req) (opts : Options) :
    authenticate env req opts =
      match extractPhase (initSt req opts) with
      | .error f => (failureToOutcome f, [])
      | .ok st =>
        match validateAccessToken env st with
        | (.error f, tr) => (failureToOutcome f, tr)
        | (.ok st', tr) => (.success st', tr) := rfl

lemma vah_none {st : St} (h : getTruthy st.req.headers.authorization = none) :
    validateAuthorizationHeader st = .ok st := by
  unfold validateAuthorizationHeader
  rw [h]

lemma vah_yields {st : St} {a s cred : String}
    (ha : getTruthy st.req.headers.authorization = some a)
    (htok : getTruthy st.token = none)
    (hsplit : jsSplit a ' ' = [s, cred])
    (hsch : jsToLower s = "bearer" ∨ jsToLower s = "dpop")
    (hsup : st.options.tokenTypesSupported = ["dpop", "legacyPop"]) :
    ∃ tt, validateAuthorizationHeader st =
      .ok { st with tokenType := some tt, token := some cred } := by
  rcases hsch with hb | hd
  · refine ⟨"bearer", ?_⟩
    simp only [validateAuthorizationHeader, ha, htok, hsplit, hsup]
    simp [hb]
  · refine ⟨"dpop", ?_⟩
    simp only [validateAuthorizationHeader, ha, htok, hsplit, hsup]
    simp [hd]

lemma vqp_none {st : St} (h : getTruthy st.req.queryToken = none) :
    validateQueryParameter st = .ok st := by
  unfold validateQueryParameter
  rw [h]

lemma vqp_set {st : St} {q : String}
    (hq : getTruthy st.req.queryToken = some q)
    (henabled : st.options.query = true)
    (htok : getTruthy st.token = none) :
    validateQueryParameter st = .ok { st with token := some q } := by
  simp only [validateQueryParameter, hq, henabled, htok]
  simp

lemma vqp_multi {st : St} {q : String}
    (hq : getTruthy st.req.queryToken = some q)
    (henabled : st.options.query = true)
    (htok : (getTruthy st.token).isSome = true) :
    validateQueryParameter st = .error (.badRequest "Multiple authentication methods") := by
  simp only [validateQueryParameter, hq, henabled, htok]
  simp

lemma vbp_none {st : St} (h : getTruthy st.req.bodyToken = none) :
    validateBodyParameter st = .ok st := by
  unfold validateBodyParameter
  rw [h]

lemma vbp_multi {st : St} {b : String}
    (hb : getTruthy st.req.bodyToken = some b)
    (htok : (getTruthy st.token).isSome = true) :
    validateBodyParameter st = .error (.badRequest "Multiple authentication methods") := by
  simp only [validateBodyParameter, hb, htok]
  simp

lemma vbp_badct {st : St} {p ct : String}
    (hb : getTruthy st.req.bodyToken = some p)
    (htok : getTruthy st.token = none)
    (hct : st.req.headers.contentType = some ct)
    (hinc : strIncludes ct "application/x-www-form-urlencoded" = false) :
    validateBodyParameter st = .error (.badRequest "Invalid Content-Type") := by
  simp only [validateBodyParameter, hb, htok, hct, hinc]
  simp

/-- C9: Credential dispatch returns a PoPToken whenever the payload
token_type is pop, taking precedence over the dpop scheme; otherwise a
DPoPToken built from the jwt, the raw DPoP header, the server URI the
middleware carries in options.realm, and the request, whenever the
detected token type is dpop; otherwise an AccessToken. -/
theorem credential_dispatch (jwt : Jwt) (tokenType : Option String)
    (req : Req) (opts : Options) :
    (jwt.payload.token_type = some "pop" →
      Credential.fromJwt jwt tokenType req opts = .popToken jwt) ∧
    (jwt.payload.token_type ≠ some "pop" → tokenType = some "dpop" →
      Credential.fromJwt jwt tokenType req opts =
        .dpopToken jwt req.headers.dpop opts.realm req) ∧
    (jwt.payload.token_type ≠ some "pop" → tokenType ≠ some "dpop" →
      Credential.fromJwt jwt tokenType req opts = .accessToken jwt) := by
  refine ⟨fun hp => ?_, fun hp hd => ?_, fun hp hd => ?_⟩
  · simp [Credential.fromJwt, hp]
  · simp [Credential.fromJwt, hp, hd]
  · simp [Credential.fromJwt, hp, hd]

/-- Witness for credential_dispatch at concrete inputs: a pop-typed
payload wins even under a dpop scheme, and a dpop scheme yields the
DPoPToken carrying the header, realm and request. -/
theorem credential_dispatch_witness :
    Credential.fromJwt ⟨{ jwtDpop.payload with token_type := some "pop" }⟩
        (some "dpop") reqDpop optsDpop =
      .popToken ⟨{ jwtDpop.payload with token_type := some "pop" }⟩ ∧
    Credential.fromJwt jwtDpop (some "dpop") reqDpop optsDpop =
      .dpopToken jwtDpop reqDpop.headers.dpop optsDpop.realm reqDpop ∧
    Credential.fromJwt jwtHappy (some "bearer") reqHappy optsHappy =
      .accessToken jwtHappy :=
  ⟨(credential_dispatch ⟨{ jwtDpop.payload with token_type := some "pop" }⟩
      (some "dpop") reqDpop optsDpop).1 rfl,
   (credential_dispatch jwtDpop (some "dpop") reqDpop optsDpop).2.1
      (by simp [jwtDpop]) rfl,
   (credential_dispatch jwtHappy (some "bearer") reqHappy optsHappy).2.2
      (by simp [jwtHappy]) (by simp)⟩

/-- C10: the constructor forces tokenTypesSupported to exactly dpop
then legacyPop for every caller options object, so the bearer and dpop
Authorization schemes are both always accepted by the header step. -/
theorem token_types_forced (opts : Options) (st : St) (a s cred : String) :
    (mkOptions opts).tokenTypesSupported = ["dpop", "legacyPop"] ∧
    (st.options = mkOptions opts →
     getTruthy st.req.headers.authorization = some a →
     getTruthy st.token = none →
     jsSplit a ' ' = [s, cred] →
     ((jsToLower s = "bearer" →
        validateAuthorizationHeader st =
          .ok { st with tokenType := some "bearer", token := some cred }) ∧
      (jsToLower s = "dpop" →
        validateAuthorizationHeader st =
          .ok { st with tokenType := some "dpop", token := some cred }))) := by
  refine ⟨rfl, fun hopts ha htok hsplit => ⟨fun hb => ?_, fun hd => ?_⟩⟩
  · have hsup : st.options.tokenTypesSupported = ["dpop", "legacyPop"] := by
      rw [hopts]; rfl
    simp only [validateAuthorizationHeader, ha, htok, hsplit, hsup]
    simp [hb]
  · have hsup : st.options.tokenTypesSupported = ["dpop", "legacyPop"] := by
      rw [hopts]; rfl
    simp only [validateAuthorizationHeader, ha, htok, hsplit, hsup]
    simp [hd]

/-- Witness for token_types_forced: at the concrete bearer request the
header is accepted and tokenTypesSupported is the forced list. -/
theorem token_types_forced_witness :
    (mkOptions optsHappy).tokenTypesSupported = ["dpop", "legacyPop"] ∧
    validateAuthorizationHeader stAuthW =
      .ok { stAuthW with tokenType := some "bearer", token := some "tok" } :=
  ⟨(token_types_forced optsHappy stAuthW "Bearer tok" "Bearer" "tok").1,
   ((token_types_forced optsHappy stAuthW "Bearer tok" "Bearer" "tok").2
      rfl rfl rfl (by decide)).1 (by decide)⟩

/-- C6 (code bug evidence): on a DPoP request whose access token and
proof pass signature, thumbprint and htu checks but whose htm is GET
while the request method is POST, the pipeline answers 401
invalid_token with the generic description Invalid PoP token, because
the source htm branch throws new Error applied to an object, a plain
Error carrying no error_description; the specific htm text is lost. -/
theorem dpop_htm_mismatch_response :
    (authenticate envDpop reqDpop optsDpop).1 =
      .response 401 (some "invalid_token") (some "Invalid PoP token") := rfl

/-- C8 counterexample: a request carrying a body access_token but no
Content-Type header at all does not get the claimed 400
invalid_request; the source calls includes on undefined, and the
resulting TypeError surfaces as a 500. -/
theorem body_no_content_type_is_500 :
    (authenticate envTriv reqBodyNoCt optsHappy).1 = .response 500 none none ∧
    (authenticate envTriv reqBodyNoCt optsHappy).1 ≠
      .response 400 (some "invalid_request") (some "Invalid Content-Type") := by
  have h0 : (authenticate envTriv reqBodyNoCt optsHappy).1 = .response 500 none none := rfl
  refine ⟨h0, ?_⟩
  rw [h0]
  simp

/-- C8 amended: when the body parameter is presented with a
Content-Type header that is present but does not include
application/x-www-form-urlencoded, and no other credential location is
used, the response is 400 invalid_request with description Invalid
Content-Type; with no Content-Type header at all the source instead
throws a TypeError and the response is a bare 500. -/
theorem body_content_type_check (env : Env) (req : Req) (opts : Options) (p : String)
    (hA : getTruthy req.headers.authorization = none)
    (hQ : getTruthy req.queryToken = none)
    (hB : getTruthy req.bodyToken = some p) :
    (∀ ct, req.headers.contentType = some ct →
      strIncludes ct "application/x-www-form-urlencoded" = false →
      (authenticate env req opts).1 =
        .response 400 (some "invalid_request") (some "Invalid Content-Type")) ∧
    (req.headers.contentType = none →
      (authenticate env req opts).1 = .response 500 none none) := by
  have hA0 : getTruthy (initSt req opts).req.headers.authorization = none := hA
  have hQ0 : getTruthy (initSt req opts).req.queryToken = none := hQ
  have hB0 : getTruthy (initSt req opts).req.bodyToken = some p := hB
  have htok : getTruthy (initSt req opts).token = none := rfl
  constructor
  · intro ct hct hinc
    rw [authenticate_def]
    have hEx : extractPhase (initSt req opts) =
        .error (.badRequest "Invalid Content-Type") := by
      unfold extractPhase extractTail
      simp only [vah_none hA0, vqp_none hQ0, vbp_badct hB0 htok hct hinc]
    rw [hEx]
    rfl
  · intro hct
    rw [authenticate_def]
    have hEx : extractPhase (initSt req opts) =
        .error (.jsError "TypeError: Cannot read properties of undefined (reading includes)") := by
      have hct0 : (initSt req opts).req.headers.contentType = none := hct
      unfold extractPhase extractTail
      simp only [vah_none hA0, vqp_none hQ0]
      simp only [validateBodyParameter, hB0, htok, hct0]
      simp
    rw [hEx]
    rfl

/-- Witness for body_content_type_check at the concrete JSON
Content-Type request. -/
theorem body_content_type_check_witness :
    (authenticate envTriv reqBodyJson optsHappy).1 =
      .response 400 (some "invalid_request") (some "Invalid Content-Type") :=
  (body_content_type_check envTriv reqBodyJson optsHappy "tok"
    rfl rfl rfl).1 "application/json" rfl (by decide)

/-- C3 counterexample: with the deny option present but its audience
list absent, a token whose aud claim is a list does not pass through
unchanged as claimed; the deny step dereferences the absent audience
and fails with a TypeError. -/
theorem deny_missing_audience_cex :
    denyStep stDenyCrash =
      .error (.jsError "TypeError: Cannot read properties of undefined (reading some)") ∧
    denyStep stDenyCrash ≠ .ok stDenyCrash := by
  have h0 : denyStep stDenyCrash =
      .error (.jsError "TypeError: Cannot read properties of undefined (reading some)") := rfl
  refine ⟨h0, ?_⟩
  rw [h0]
  simp

lemma denyStep_eq {st : St} {d : DenyOpt} {c : Credential}
    (hd : st.options.deny = some d) (hc : st.credential = some c) :
    denyStep st =
      if issuerDenied d c.iss then
        .error (.forbidden st.options.realm (some "access_denied")
          (some "Issuer is on the deny blacklist"))
      else if audDerefCrashes d c.aud then
        .error (.jsError (match c.aud with
          | .arr _ => "TypeError: Cannot read properties of undefined (reading some)"
          | _ => "TypeError: Cannot read properties of undefined (reading includes)"))
      else if (match d.audience with
               | some al => audienceDeniedBy al c.aud
               | none => false) then
        .error (.forbidden st.options.realm (some "access_denied")
          (some "Audience is on the deny blacklist"))
      else if subjectDenied d c.sub then
        .error (.forbidden st.options.realm (some "access_denied")
          (some "Subject is on the deny blacklist"))
      else .ok st := by
  rcases hio : d.issuers with _ | li <;>
  rcases hao : d.audience with _ | al <;>
  rcases hso : d.subjects with _ | ls <;>
  rcases haud : c.aud with _ | s | l <;>
  simp_all [denyStep, denySubjectsCheck, issuerDenied, subjectDenied,
    audienceDeniedBy, audDerefCrashes]

/-- C3 amended: with the deny option and a credential present, the
deny step returns 403 access_denied exactly on an issuer, audience or
subject deny match, where the audience comparison presupposes a
present deny audience list; when the deny configuration omits audience
while the aud claim is a string or a list (and the issuer did not
already match), the step instead fails with a TypeError, mapped to a
500; only a token matching none of the lists and not hitting that
dereference passes through unchanged. -/
theorem deny_step_characterization (st : St) (d : DenyOpt) (c : Credential)
    (hd : st.options.deny = some d) (hc : st.credential = some c) :
    (denyStep st = .ok st ↔
      (issuerDenied d c.iss = false ∧ audDerefCrashes d c.aud = false ∧
       (∀ al, d.audience = some al → audienceDeniedBy al c.aud = false) ∧
       subjectDenied d c.sub = false)) ∧
    (denyStep st = .error (.forbidden st.options.realm (some "access_denied")
        (some "Issuer is on the deny blacklist")) ↔
      issuerDenied d c.iss = true) ∧
    (issuerDenied d c.iss = false → audDerefCrashes d c.aud = true →
      ∃ m, denyStep st = .error (.jsError m)) ∧
    (∀ al, d.audience = some al → issuerDenied d c.iss = false →
      (denyStep st = .error (.forbidden st.options.realm (some "access_denied")
          (some "Audience is on the deny blacklist")) ↔
        audienceDeniedBy al c.aud = true)) ∧
    (issuerDenied d c.iss = false → audDerefCrashes d c.aud = false →
      (∀ al, d.audience = some al → audienceDeniedBy al c.aud = false) →
      (denyStep st = .error (.forbidden st.options.realm (some "access_denied")
          (some "Subject is on the deny blacklist")) ↔
        subjectDenied d c.sub = true)) := by
  have heq := denyStep_eq hd hc
  rw [heq]
  by_cases h1 : issuerDenied d c.iss <;>
  by_cases h4 : subjectDenied d c.sub <;>
  rcases hao : d.audience with _ | al <;>
  rcases haud : c.aud with _ | s | l <;>
  simp_all [audDerefCrashes, audienceDeniedBy] <;>
  (try (split_ifs <;> simp_all))

/-- Witness for deny_step_characterization at the concrete fully
populated deny configuration and happy credential. -/
theorem deny_step_characterization_witness :
    (denyStep stDenyFull = .ok stDenyFull ↔
      (issuerDenied dFull (Credential.iss cHappy) = false ∧
       audDerefCrashes dFull (Credential.aud cHappy) = false ∧
       (∀ al, dFull.audience = some al →
          audienceDeniedBy al (Credential.aud cHappy) = false) ∧
       subjectDenied dFull (Credential.sub cHappy) = false)) ∧
    (denyStep stDenyFull = .error (.forbidden stDenyFull.options.realm
        (some "access_denied") (some "Issuer is on the deny blacklist")) ↔
      issuerDenied dFull (Credential.iss cHappy) = true) ∧
    (issuerDenied dFull (Credential.iss cHappy) = false →
     audDerefCrashes dFull (Credential.aud cHappy) = true →
      ∃ m, denyStep stDenyFull = .error (.jsError m)) ∧
    (∀ al, dFull.audience = some al →
      issuerDenied dFull (Credential.iss cHappy) = false →
      (denyStep stDenyFull = .error (.forbidden stDenyFull.options.realm
          (some "access_denied") (some "Audience is on the deny blacklist")) ↔
        audienceDeniedBy al (Credential.aud cHappy) = true)) ∧
    (issuerDenied dFull (Credential.iss cHappy) = false →
     audDerefCrashes dFull (Credential.aud cHappy) = false →
     (∀ al, dFull.audience = some al →
        audienceDeniedBy al (Credential.aud cHappy) = false) →
      (denyStep stDenyFull = .error (.forbidden stDenyFull.options.realm
          (some "access_denied") (some "Subject is on the deny blacklist")) ↔
        subjectDenied dFull (Credential.sub cHappy) = true)) :=
  deny_step_characterization stDenyFull dFull cHappy rfl rfl

/-- C4: DPoP proof validation succeeds exactly when the proof decodes
with a jwk in its header, its signature verifies under that jwk, the
access token cnf.jkt equals the jwk thumbprint, the htu equals the
reconstruction from the server URI and request path, and the htm
equals the request method; and every rejection, once the pipeline
defaults an absent error code, is of the invalid_token kind. -/
theorem dpop_validate_iff (env : Env) (jwt : Jwt) (hdr uri : Option String) (req : Req) :
    (dpopValidate env jwt hdr uri req = .ok () ↔
      ∃ d jwk u,
        env.decodeDpop hdr = some d ∧
        d.jwk = some jwk ∧
        env.verifyDpop hdr jwk = true ∧
        jwt.payload.cnf = some ⟨some (env.thumbprint jwk)⟩ ∧
        parseUri (jsStr uri ++ req.path) = some u ∧
        d.htu = some (requiredHtuOf u req.headers.host) ∧
        d.htm = some req.method) ∧
    (∀ e, dpopValidate env jwt hdr uri req = .error e →
      e.error.getD "invalid_token" = "invalid_token") := by
  constructor
  · constructor
    · intro h
      unfold dpopValidate at h
      split at h
      · exact Except.noConfusion h
      · rename_i d hd
        split at h
        · exact Except.noConfusion h
        · rename_i jwk hjwk
          split at h
          · exact Except.noConfusion h
          · rename_i hver
            split at h
            · exact Except.noConfusion h
            · rename_i cnf0 hcnf
              split at h
              · exact Except.noConfusion h
              · rename_i hjkt
                split at h
                · exact Except.noConfusion h
                · rename_i u hu
                  split at h
                  · exact Except.noConfusion h
                  · rename_i hhtu
                    split at h
                    · exact Except.noConfusion h
                    · rename_i hhtm
                      refine ⟨d, jwk, u, hd, hjwk, by simpa using hver, ?_,
                        hu, by simpa using hhtu, by simpa using hhtm⟩
                      rw [hcnf]
                      cases cnf0 with
                      | mk jkt =>
                        simp only [not_not] at hjkt
                        rw [hjkt]
    · rintro ⟨d, jwk, u, hd, hjwk, hver, hcnf, hu, hhtu, hhtm⟩
      simp only [dpopValidate, hd, hjwk, hver, hcnf, hu, hhtu, hhtm]
      simp
  · intro e h
    unfold dpopValidate at h
    repeat' split at h
    all_goals first
      | exact Except.noConfusion h
      | (cases h; rfl)

/-- Witness for dpop_validate_iff: the concrete GET DPoP request with
matching thumbprint, htu and htm validates. -/
theorem dpop_validate_iff_witness :
    dpopValidate envDpop jwtDpop (some "dpophdr") (some "https://rs.example") reqDpopGet =
      .ok () :=
  (dpop_validate_iff envDpop jwtDpop (some "dpophdr")
      (some "https://rs.example") reqDpopGet).1.mpr
    ⟨⟨some "jwk1", some "https://rs.example/resource", some "GET"⟩, "jwk1",
     ⟨"https", "rs.example", "/resource"⟩, rfl, rfl, rfl, rfl, rfl, rfl, rfl⟩

/-- C5: the subdomain test holds exactly when every dot-separated
label of the configured host equals the label of the request host at
the same distance from the right; the expected htu substitutes the
request host into the parse of the server URI concatenated with the
request path exactly when that test holds; and an htu differing from
the reconstruction rejects the proof with invalid_token and a
description naming both values. -/
theorem dpop_htu_reconstruction :
    (∀ dom sub : String, isSubdomain dom sub = true ↔
      ∀ j < (jsSplit dom '.').length,
        (jsSplit sub '.').reverse.get? j = (jsSplit dom '.').reverse.get? j) ∧
    (∀ (u : UriParts) (h : String),
      requiredHtuOf u h =
        UriParts.toStr { u with host := if isSubdomain u.host h then h else u.host }) ∧
    (∀ (env : Env) (jwt : Jwt) (hdr uri : Option String) (req : Req)
       (d : DPoPDecoded) (jwk : String) (u : UriParts),
      env.decodeDpop hdr = some d →
      d.jwk = some jwk →
      env.verifyDpop hdr jwk = true →
      jwt.payload.cnf = some ⟨some (env.thumbprint jwk)⟩ →
      parseUri (jsStr uri ++ req.path) = some u →
      d.htu ≠ some (requiredHtuOf u req.headers.host) →
      dpopValidate env jwt hdr uri req =
        .error ⟨some "invalid_token",
          some ("htu " ++ jsStr d.htu ++ " does not match "
                ++ requiredHtuOf u req.headers.host)⟩) := by
  refine ⟨isSubdomain_iff, fun u h => rfl, ?_⟩
  intro env jwt hdr uri req d jwk u hd hjwk hver hcnf hu hne
  simp only [dpopValidate, hd, hjwk, hver, hcnf, hu]
  simp [hne]

/-- Witness for dpop_htu_reconstruction: a dot-aligned subdomain
passes the test, and the concrete foreign htu is rejected with the
description naming both URIs. -/
theorem dpop_htu_reconstruction_witness :
    isSubdomain "rs.example" "api.rs.example" = true ∧
    dpopValidate envDpopHtu jwtDpop (some "dpophdr") (some "https://rs.example") reqDpopGet =
      .error ⟨some "invalid_token",
        some "htu https://other.example/x does not match https://rs.example/resource"⟩ :=
  ⟨(dpop_htu_reconstruction.1 "rs.example" "api.rs.example").mpr (by decide),
   dpop_htu_reconstruction.2.2 envDpopHtu jwtDpop (some "dpophdr")
     (some "https://rs.example") reqDpopGet
     ⟨some "jwk1", some "https://other.example/x", some "GET"⟩ "jwk1"
     ⟨"https", "rs.example", "/resource"⟩ rfl rfl rfl rfl rfl (by decide)⟩

/-- C2: whenever the key resolution step runs with a credential, the
call trace starts with providers.resolve on the iss claim; when the
first credential.resolveKeys succeeds the step returns with no rotate
call; when it fails, providers.rotate runs and resolveKeys retries
exactly once; when the retry also fails the thrown failure maps to a
401 invalid_token response with the fixed description; and a rotate
call in the trace certifies that the first resolveKeys failed. -/
theorem resolveKeys_retry_pattern (env : Env) (st : St) (c : Credential)
    (hc : st.credential = some c) :
    (resolveKeysStep env st).2.head? = some (.resolveCall c.iss) ∧
    (∀ p, env.resolve c.iss = .ok p →
      (env.resolveKeys p.jwks = true →
        resolveKeysStep env st =
          (.ok st, [.resolveCall c.iss, .resolveKeysCall p.jwks])) ∧
      (env.resolveKeys p.jwks = false →
        ∀ p2, env.rotate c.iss = .ok p2 →
          (env.resolveKeys p2.jwks = true →
            resolveKeysStep env st =
              (.ok st, [.resolveCall c.iss, .resolveKeysCall p.jwks,
                        .rotateCall c.iss, .resolveKeysCall p2.jwks])) ∧
          (env.resolveKeys p2.jwks = false →
            resolveKeysStep env st =
              (.error (.unauthorized st.options.realm (some "invalid_token")
                 (some "Cannot find key to verify JWT signature")),
               [.resolveCall c.iss, .resolveKeysCall p.jwks,
                .rotateCall c.iss, .resolveKeysCall p2.jwks]) ∧
            failureToOutcome (.unauthorized st.options.realm (some "invalid_token")
                (some "Cannot find key to verify JWT signature")) =
              .response 401 (some "invalid_token")
                (some "Cannot find key to verify JWT signature")))) ∧
    (Event.rotateCall c.iss ∈ (resolveKeysStep env st).2 →
      ∃ p, env.resolve c.iss = .ok p ∧ env.resolveKeys p.jwks = false) := by
  refine ⟨?_, ?_, ?_⟩
  · cases hr : env.resolve c.iss with
    | error m => simp [resolveKeysStep, hc, hr]
    | ok p =>
      cases hk : env.resolveKeys p.jwks with
      | true => simp [resolveKeysStep, hc, hr, hk]
      | false =>
        cases hro : env.rotate c.iss with
        | error m => simp [resolveKeysStep, hc, hr, hk, hro]
        | ok p2 =>
          cases hk2 : env.resolveKeys p2.jwks with
          | true => simp [resolveKeysStep, hc, hr, hk, hro, hk2]
          | false => simp [resolveKeysStep, hc, hr, hk, hro, hk2]
  · intro p hp
    constructor
    · intro hk
      simp [resolveKeysStep, hc, hp, hk]
    · intro hk p2 hp2
      constructor
      · intro hk2
        simp [resolveKeysStep, hc, hp, hk, hp2, hk2]
      · intro hk2
        exact ⟨by simp [resolveKeysStep, hc, hp, hk, hp2, hk2], rfl⟩
  · intro hmem
    cases hr : env.resolve c.iss with
    | error m =>
      rw [show resolveKeysStep env st = (.error (.jsError m), [.resolveCall c.iss])
          from by simp [resolveKeysStep, hc, hr]] at hmem
      simp at hmem
    | ok p =>
      cases hk : env.resolveKeys p.jwks with
      | false => exact ⟨p, rfl, hk⟩
      | true =>
        rw [show resolveKeysStep env st =
              (.ok st, [.resolveCall c.iss, .resolveKeysCall p.jwks])
            from by simp [resolveKeysStep, hc, hr, hk]] at hmem
        simp at hmem

/-- Witness for resolveKeys_retry_pattern: the happy-path environment
resolves the key on the first attempt with the two-call trace. -/
theorem resolveKeys_retry_pattern_witness :
    resolveKeysStep envHappy stHappy =
      (.ok stHappy, [.resolveCall (Credential.iss cHappy),
                     .resolveKeysCall (Provider.jwks ⟨"jwks1"⟩)]) :=
  ((resolveKeys_retry_pattern envHappy stHappy cHappy rfl).2.1 ⟨"jwks1"⟩ rfl).1 rfl

lemma extractTail_multi {st : St}
    (htok : (getTruthy st.token).isSome = true)
    (hQ : getTruthy st.req.queryToken = none ∨ st.options.query = true)
    (hqb : (∃ q, getTruthy st.req.queryToken = some q) ∨
           (∃ b, getTruthy st.req.bodyToken = some b)) :
    extractTail st = .error (.badRequest "Multiple authentication methods") := by
  rcases hqp : getTruthy st.req.queryToken with _ | q
  · rcases hqb with ⟨q, hq⟩ | ⟨b, hb⟩
    · rw [hqp] at hq
      exact Option.noConfusion hq
    · unfold extractTail
      simp only [vqp_none hqp, vbp_multi hb htok]
  · rcases hQ with hnone | htrue
    · rw [hqp] at hnone
      exact Option.noConfusion hnone
    · unfold extractTail
      simp only [vqp_multi hqp htrue htok]

/-- C7: whenever at least two of the three credential locations yield
a credential (the header present, well formed and of a supported
scheme; the query parameter present with the query option enabled;
the body parameter present), and each present location yields, the
response is 400 invalid_request with description Multiple
authentication methods, for each of the three pairs. -/
theorem multiple_auth_methods_rejected (env : Env) (req : Req) (opts : Options)
    (hH : getTruthy req.headers.authorization = none ∨ headerYields req)
    (hQ : getTruthy req.queryToken = none ∨ opts.query = true)
    (hTwo : atLeastTwo (headerYields req) (queryYields req opts) (bodyYields req)) :
    (authenticate env req opts).1 =
      .response 400 (some "invalid_request") (some "Multiple authentication methods") := by
  rw [authenticate_def]
  suffices hEx : extractPhase (initSt req opts) =
      .error (.badRequest "Multiple authentication methods") by
    rw [hEx]
    rfl
  have htok0 : getTruthy (initSt req opts).token = none := rfl
  have hsup : (initSt req opts).options.tokenTypesSupported = ["dpop", "legacyPop"] := rfl
  have hQ0 : ∀ tt cred,
      getTruthy ({ initSt req opts with tokenType := some tt, token := some cred } : St).req.queryToken = none ∨
      ({ initSt req opts with tokenType := some tt, token := some cred } : St).options.query = true :=
    fun _ _ => hQ
  unfold extractPhase
  rcases hTwo with ⟨hHy, hQy⟩ | ⟨hHy, hBy⟩ | ⟨hQy, hBy⟩
  · obtain ⟨a, s, cred, ha, hsplit, hcredne, hsch⟩ := hHy
    obtain ⟨tt, hvah⟩ := @vah_yields (initSt req opts) a s cred ha htok0 hsplit hsch hsup
    simp only [hvah]
    obtain ⟨hqt, q, hq⟩ := hQy
    exact extractTail_multi (by simp [getTruthy, hcredne]) (hQ0 tt cred) (Or.inl ⟨q, hq⟩)
  · obtain ⟨a, s, cred, ha, hsplit, hcredne, hsch⟩ := hHy
    obtain ⟨tt, hvah⟩ := @vah_yields (initSt req opts) a s cred ha htok0 hsplit hsch hsup
    simp only [hvah]
    obtain ⟨b, hb⟩ := hBy
    exact extractTail_multi (by simp [getTruthy, hcredne]) (hQ0 tt cred) (Or.inr ⟨b, hb⟩)
  · rcases hH with hanone | hHy
    · simp only [@vah_none (initSt req opts) hanone]
      obtain ⟨hqt, q, hq⟩ := hQy
      obtain ⟨b, hb⟩ := hBy
      unfold extractTail
      simp only [@vqp_set (initSt req opts) q hq hqt htok0]
      have htok2 : (getTruthy ({ initSt req opts with token := some q } : St).token).isSome
          = true := by
        show (getTruthy (some q)).isSome = true
        rw [getTruthy_some hq]
        rfl
      simp only [vbp_multi (b := b) hb htok2]
    · obtain ⟨a, s, cred, ha, hsplit, hcredne, hsch⟩ := hHy
      obtain ⟨tt, hvah⟩ := @vah_yields (initSt req opts) a s cred ha htok0 hsplit hsch hsup
      simp only [hvah]
      obtain ⟨hqt, q, hq⟩ := hQy
      exact extractTail_multi (by simp [getTruthy, hcredne]) (hQ0 tt cred) (Or.inl ⟨q, hq⟩)

/-- Witness for multiple_auth_methods_rejected: the concrete request
carrying both a bearer Authorization header and a body access_token is
answered with the Multiple authentication methods response. -/
theorem multiple_auth_methods_rejected_witness :
    (authenticate envTriv reqMulti optsHappy).1 =
      .response 400 (some "invalid_request") (some "Multiple authentication methods") :=
  multiple_auth_methods_rejected envTriv reqMulti optsHappy
    (Or.inr ⟨"Bearer tok", "Bearer", "tok", rfl, by decide, by decide, Or.inl (by decide)⟩)
    (Or.inl rfl)
    (Or.inr (Or.inl ⟨⟨"Bearer tok", "Bearer", "tok", rfl, by decide, by decide,
        Or.inl (by decide)⟩, ⟨"tok2", rfl⟩⟩))

/-- C1: whenever authenticate reaches the downstream middleware with a
credential set, every validation check held: the token decoded to the
credential JWT, the PoP proof verified when the credential is
PoP-bound, the allow and deny steps passed, a signing key was resolved
for the iss claim (directly or after one rotation), the signature
verified, exp lies in the future, nbf does not, and every required
scope occurs in the scope claim. -/
theorem pipeline_success_all_checks
    (env : Env) (req : Req) (opts : Options) (st : St) (tr : List Event) (c : Credential)
    (hrun : authenticate env req opts = (.success st, tr))
    (hc : st.credential = some c) :
    (∃ t, st.token = some t ∧ env.decode t = some c.jwt) ∧
    (c.isPoPToken = true → credValidatePoP env c = .ok ()) ∧
    allowStep st = .ok st ∧
    denyStep st = .ok st ∧
    (∃ p, env.resolve c.iss = .ok p ∧
      (env.resolveKeys p.jwks = true ∨
       ∃ p2, env.rotate c.iss = .ok p2 ∧ env.resolveKeys p2.jwks = true)) ∧
    env.verifySig c.jwt = true ∧
    (∀ e, c.jwt.payload.exp = some e → env.now < e) ∧
    (∀ n, c.jwt.payload.nbf = some n → n ≤ env.now) ∧
    (∀ required, st.options.scopes = some required →
      ∀ s ∈ required, s ∈ tokenScopes c.jwt) := by
  rw [authenticate_def] at hrun
  cases hE : extractPhase (initSt req opts) with
  | error f =>
    simp only [hE] at hrun
    cases f <;> simp [failureToOutcome] at hrun
  | ok sA =>
    simp only [hE] at hrun
    cases hV : validateAccessToken env sA with
    | mk r tr2 =>
      simp only [hV] at hrun
      cases r with
      | error f =>
        cases f <;> simp [failureToOutcome] at hrun
      | ok stf =>
        have hst : stf = st := by
          injection hrun with h1 h2
          injection h1 with h1
        subst hst
        obtain ⟨hcredA, hreqA, hoptsA⟩ := extract_ok hE
        have hcredN : sA.credential = none := hcredA
        unfold validateAccessToken at hV
        split at hV
        · injection hV with h1 h2
          injection h1 with h1
          rw [← h1, hcredN] at hc
          exact Option.noConfusion hc
        · cases hD : decodeStep env sA with
          | error f => simp only [hD] at hV; simp at hV
          | ok st1 =>
            simp only [hD] at hV
            cases hP : validatePoPTokenStep env st1 with
            | error f => simp only [hP] at hV; simp at hV
            | ok st2 =>
              simp only [hP] at hV
              cases hA : allowStep st2 with
              | error f => simp only [hA] at hV; simp at hV
              | ok st3 =>
                simp only [hA] at hV
                cases hDe : denyStep st3 with
                | error f => simp only [hDe] at hV; simp at hV
                | ok st4 =>
                  simp only [hDe] at hV
                  cases hR : resolveKeysStep env st4 with
                  | mk r5 tr5 =>
                    simp only [hR] at hV
                    cases r5 with
                    | error f => simp at hV
                    | ok st5 =>
                      cases hVe : verifySignatureStep env st5 with
                      | error f => simp only [hVe] at hV; simp at hV
                      | ok st6 =>
                        simp only [hVe] at hV
                        cases hEx2 : validateExpiryStep env st6 with
                        | error f => simp only [hEx2] at hV; simp at hV
                        | ok st7 =>
                          simp only [hEx2] at hV
                          cases hN : validateNotBeforeStep env st7 with
                          | error f => simp only [hN] at hV; simp at hV
                          | ok st8 =>
                            simp only [hN] at hV
                            cases hS : validateScopeStep env st8 with
                            | error f => simp only [hS] at hV; simp at hV
                            | ok st9 =>
                              simp only [hS] at hV
                              have h9 : st9 = stf := by
                                rw [Prod.mk.injEq] at hV
                                injection hV.1 with h1
                              obtain ⟨hP2, hPc⟩ := popStep_ok hP
                              subst hP2
                              have hA2 := allowStep_ok hA
                              subst hA2
                              have hDe2 := denyStep_ok hDe
                              subst hDe2
                              obtain ⟨hR2, hRc⟩ := resolveKeysStep_ok hR
                              subst hR2
                              obtain ⟨hVe2, hVc⟩ := verifyStep_ok hVe
                              subst hVe2
                              obtain ⟨hEx3, hExc⟩ := expiryStep_ok hEx2
                              subst hEx3
                              obtain ⟨hN2, hNc⟩ := nbfStep_ok hN
                              subst hN2
                              obtain ⟨hS2, hSc⟩ := scopeStep_ok hS
                              subst hS2
                              subst h9
                              obtain ⟨t, jwt, htokA, hdec, hst1⟩ := decodeStep_ok hD
                              subst hst1
                              have hcc : Credential.fromJwt jwt sA.tokenType sA.req sA.options = c := by
                                simpa using hc
                              refine ⟨⟨t, by simpa using htokA, ?_⟩,
                                fun hpop => hPc c hc hpop,
                                hA, hDe, hRc c hc, hVc c hc,
                                hExc c hc, hNc c hc, hSc c hc⟩
                              rw [← hcc, fromJwt_jwt]
                              exact hdec

/-- Witness for pipeline_success_all_checks: the happy-path bearer run
reaches the downstream middleware and all checks hold at it. -/
theorem pipeline_success_all_checks_witness :
    (∃ t, stHappy.token = some t ∧ envHappy.decode t = some (Credential.jwt cHappy)) ∧
    (Credential.isPoPToken cHappy = true → credValidatePoP envHappy cHappy = .ok ()) ∧
    allowStep stHappy = .ok stHappy ∧
    denyStep stHappy = .ok stHappy ∧
    (∃ p, envHappy.resolve (Credential.iss cHappy) = .ok p ∧
      (envHappy.resolveKeys p.jwks = true ∨
       ∃ p2, envHappy.rotate (Credential.iss cHappy) = .ok p2 ∧
         envHappy.resolveKeys p2.jwks = true)) ∧
    envHappy.verifySig (Credential.jwt cHappy) = true ∧
    (∀ e, (Credential.jwt cHappy).payload.exp = some e → envHappy.now < e) ∧
    (∀ n, (Credential.jwt cHappy).payload.nbf = some n → n ≤ envHappy.now) ∧
    (∀ required, stHappy.options.scopes = some required →
      ∀ s ∈ required, s ∈ tokenScopes (Credential.jwt cHappy)) :=
  pipeline_success_all_checks envHappy reqHappy optsHappy stHappy trHappy cHappy rfl rfl

/-- C7 counterexample: two requests on which more than one credential
location yields a credential yet the response is not Multiple
authentication methods. With a yielding bearer header and a yielding
body parameter, a stray query access_token under the disabled query
option draws 400 Invalid authentication method, because the
disabled-query check precedes the multiple-methods check; and with a
malformed one-component Authorization header alongside a yielding
enabled query parameter and a yielding body parameter, the response is
400 Invalid authorization header. -/
theorem multiple_auth_stray_sources_cex :
    (headerYields reqStrayQuery ∧ bodyYields reqStrayQuery ∧
     (authenticate envTriv reqStrayQuery optsHappy).1 =
       .response 400 (some "invalid_request") (some "Invalid authentication method") ∧
     (authenticate envTriv reqStrayQuery optsHappy).1 ≠
       .response 400 (some "invalid_request") (some "Multiple authentication methods")) ∧
    (queryYields reqBadHeader optsQueryOn ∧ bodyYields reqBadHeader ∧
     (authenticate envTriv reqBadHeader optsQueryOn).1 =
       .response 400 (some "invalid_request") (some "Invalid authorization header") ∧
     (authenticate envTriv reqBadHeader optsQueryOn).1 ≠
       .response 400 (some "invalid_request") (some "Multiple authentication methods")) := by
  have h1 : (authenticate envTriv reqStrayQuery optsHappy).1 =
      .response 400 (some "invalid_request") (some "Invalid authentication method") := rfl
  have h2 : (authenticate envTriv reqBadHeader optsQueryOn).1 =
      .response 400 (some "invalid_request") (some "Invalid authorization header") := rfl
  refine ⟨⟨⟨"Bearer tok", "Bearer", "tok", rfl, by decide, by decide,
      Or.inl (by decide)⟩, ⟨"tok2", rfl⟩, h1, ?_⟩,
    ⟨⟨rfl, "qq", rfl⟩, ⟨"tok2", rfl⟩, h2, ?_⟩⟩
  · rw [h1]
    simp
  · rw [h2]
    simp
